import Mathlib

/-
Verification development for the pyDE1 ScaleProcessor core
(src/pyDE1/scale/processor.py) and the HTTP configuration section
(src/pyDE1/config.py).

The Python code is shallowly embedded: the processor's mutable state is a
Lean structure, each async method becomes a pure state-transition function,
and operations that may raise become `Except String`-valued functions.
Python floats are modelled as rationals (ℚ).  External collaborators
(event bus, BLE stack, scale objects) are modelled by explicit environments
recording the outcome of each external call, and lifecycle operations also
return a trace of the externally visible actions they perform.

The four estimators live in pyDE1/scale/estimator.py, which is not part of
the reviewed sources; they are modelled from the specification (§4.3) and
are marked as such below.
-/

deriving instance DecidableEq for Except

namespace PyDE1

/-- Connectivity states of a scale, from pyDE1.dispatcher.resource.ConnectivityEnum. -/
inductive ConnectivityEnum where
  | NOT_CONNECTED
  | CONNECTING
  | CONNECTED
  | DISCONNECTING
  | READY
deriving DecidableEq, Repr

/-- A scale object (external collaborator).  `id` stands for Python object
identity: `scale_factory` always returns a fresh object, so two distinct
objects never compare equal even with the same address. -/
structure Scale where
  id : Nat
  address : String
  name : String
  type' : String
  connectivity : ConnectivityEnum
  is_connected : Bool
deriving DecidableEq, Repr

/-- A raw weight sample event (pyDE1.scale.events.ScaleWeightUpdate). -/
structure ScaleWeightUpdate where
  arrival_time : ℚ
  scale_time : ℚ
  weight : ℚ
deriving DecidableEq, Repr

/-- A tare event (pyDE1.scale.events.ScaleTareSeen): timing metadata only. -/
structure ScaleTareSeen where
  arrival_time : ℚ
  scale_time : ℚ
deriving DecidableEq, Repr

/-- The derived event (pyDE1.scale.events.WeightAndFlowUpdate), built in
scale_weight_update_subscriber with one field per keyword argument. -/
structure WeightAndFlowUpdate where
  arrival_time : ℚ
  scale_time : ℚ
  current_weight : ℚ
  current_weight_time : ℚ
  average_flow : ℚ
  average_flow_time : ℚ
  median_weight : ℚ
  median_weight_time : ℚ
  median_flow : ℚ
  median_flow_time : ℚ
deriving DecidableEq, Repr

/-- The mutable state of the ScaleProcessor singleton, one field per
attribute assigned in ScaleProcessor._singleton_init.  Subscription ids
(UUIDs in the source) are modelled as Nat. -/
structure ScaleProcessor where
  _scale : Option Scale
  _scale_weight_update_id : Option Nat
  _scale_tare_seen_id : Option Nat
  _history_max : Nat
  _history_time : List ℚ
  _history_weight : List ℚ
  _current_weight : ℚ
  _current_weight_time : ℚ
  _average_flow : ℚ
  _average_flow_time : ℚ
  _median_weight : ℚ
  _median_weight_time : ℚ
  _median_flow : ℚ
  _median_flow_time : ℚ
deriving DecidableEq, Repr

/-- Initial processor state as set by ScaleProcessor._singleton_init before
any event arrives: unbound, empty history of capacity 10, all estimator
state zero. -/
def ScaleProcessor._singleton_init : ScaleProcessor where
  _scale := none
  _scale_weight_update_id := none
  _scale_tare_seen_id := none
  _history_max := 10
  _history_time := []
  _history_weight := []
  _current_weight := 0
  _current_weight_time := 0
  _average_flow := 0
  _average_flow_time := 0
  _median_weight := 0
  _median_weight_time := 0
  _median_flow := 0
  _median_flow_time := 0

/-- Property `scale`. -/
def ScaleProcessor.scale (p : ScaleProcessor) : Option Scale :=
  p._scale

/-- Null-safe property `scale_address`. -/
def ScaleProcessor.scale_address (p : ScaleProcessor) : Option String :=
  match p.scale with
  | some s => some s.address
  | none => none

/-- Null-safe property `scale_name`. -/
def ScaleProcessor.scale_name (p : ScaleProcessor) : Option String :=
  match p.scale with
  | some s => some s.name
  | none => none

/-- Null-safe property `scale_type`. -/
def ScaleProcessor.scale_type (p : ScaleProcessor) : Option String :=
  match p.scale with
  | some s => some s.type'
  | none => none

/-- Null-safe property `scale_connectivity`: NOT_CONNECTED when unbound. -/
def ScaleProcessor.scale_connectivity (p : ScaleProcessor) : ConnectivityEnum :=
  match p.scale with
  | some s => s.connectivity
  | none => ConnectivityEnum.NOT_CONNECTED

/-- ScaleProcessor._reset: under _history_lock, empties both history lists.
Nothing else (in particular no estimator-state field) is touched. -/
def ScaleProcessor._reset (p : ScaleProcessor) : ScaleProcessor :=
  { p with _history_time := [], _history_weight := [] }

/-- ScaleProcessor._history_available: min of the two lengths ("ultra safe"). -/
def ScaleProcessor._history_available (p : ScaleProcessor) : Nat :=
  min p._history_weight.length p._history_time.length

/-- The `while len(l) > max: l.pop(0)` loops of scale_weight_update_subscriber:
drop elements from the front while the list is longer than `max`. -/
def popWhileOverMax {α : Type} : List α → Nat → List α
  | [], _ => []
  | x :: t, max => if (x :: t).length > max then popWhileOverMax t max else x :: t

/-! ### Estimator pipeline

pyDE1/scale/estimator.py is not among the reviewed sources; the estimators
below are modelled from the specification (§4.3).  Each estimator owns one
named output slot on the processor and one pure computation over a history
snapshot; `estimate` applies the computation and writes the slot, catching
any internal failure (spec §7: "a single estimator raising is caught,
logged, and its prior EstimatorState is retained for that pass") and
retaining the prior state on failure or skip. -/

/-- Modelled from the spec: the named destination slots on the processor
that the four estimators write into ("each estimator owns exactly one named
output slot"). -/
inductive Slot where
  | current_weight
  | average_flow
  | median_weight
  | median_flow
deriving DecidableEq, Repr

/-- Modelled from the spec: outcome of an estimator's internal computation —
a `(value, time)` pair, a skip (data shortage), or a raised exception. -/
inductive EstimateResult where
  | ok (value : ℚ) (time : ℚ)
  | skip
  | error (msg : String)
deriving DecidableEq, Repr

/-- Write a `(value, time)` pair into the processor field pair named by the
slot, leaving every other field (history included) unchanged. -/
def writeSlot (s : Slot) (p : ScaleProcessor) (v t : ℚ) : ScaleProcessor :=
  match s with
  | Slot.current_weight => { p with _current_weight := v, _current_weight_time := t }
  | Slot.average_flow => { p with _average_flow := v, _average_flow_time := t }
  | Slot.median_weight => { p with _median_weight := v, _median_weight_time := t }
  | Slot.median_flow => { p with _median_flow := v, _median_flow_time := t }

/-- Modelled from the spec: an estimator is a destination slot plus a pure
computation over the history snapshot (times, weights). -/
structure Estimator where
  slot : Slot
  inner : List ℚ → List ℚ → EstimateResult

/-- Modelled from the spec: `estimate()` runs the inner computation on the
current history; on success it overwrites the estimator's slot, on skip or
on a raised exception it leaves all processor state unchanged (the
exception is caught and logged, never propagated). -/
def Estimator.estimate (e : Estimator) (p : ScaleProcessor) : ScaleProcessor :=
  match e.inner p._history_time p._history_weight with
  | EstimateResult.ok v t => writeSlot e.slot p v t
  | EstimateResult.skip => p
  | EstimateResult.error _ => p

/-- The `for estimator in self._estimators: estimator.estimate()` loop. -/
def runEstimators (es : List Estimator) (p : ScaleProcessor) : ScaleProcessor :=
  es.foldl (fun q e => e.estimate q) p

/-- The most recent `n` elements of a list (the window an estimator reads). -/
def lastWindow {α : Type} (l : List α) (n : Nat) : List α :=
  l.drop (l.length - n)

/-- Insert into a sorted list of rationals (ascending). -/
def insertAsc (x : ℚ) : List ℚ → List ℚ
  | [] => [x]
  | y :: t => if x ≤ y then x :: y :: t else y :: insertAsc x t

/-- Insertion sort, ascending. -/
def sortAsc : List ℚ → List ℚ
  | [] => []
  | x :: t => insertAsc x (sortAsc t)

/-- Median of a list of rationals: middle element of the sorted list, or the
mean of the two middle elements for even length (statistics.median). -/
def medianQ (l : List ℚ) : ℚ :=
  let s := sortAsc l
  let n := s.length
  if n % 2 = 1 then s.getD (n / 2) 0
  else (s.getD (n / 2 - 1) 0 + s.getD (n / 2) 0) / 2

/-- Modelled from the spec: CurrentWeight — value is the most recent
sample's weight, time its scale_time; skip on empty history. -/
def CurrentWeight : Estimator where
  slot := Slot.current_weight
  inner := fun times weights =>
    match times.getLast?, weights.getLast? with
    | some t, some w => EstimateResult.ok w t
    | _, _ => EstimateResult.skip

/-- Endpoint finite-difference flow over a window: (last weight − first
weight) / (last time − first time).  ℚ division is total (x / 0 = 0). -/
def endpointFlow (times weights : List ℚ) : ℚ :=
  (weights.getLastD 0 - weights.headD 0) / (times.getLastD 0 - times.headD 0)

/-- Modelled from the spec: AverageFlow(window) — a finite-difference rate
over the most recent up-to-`window` samples; time is the newest sample's
time; requires at least 2 samples, skip otherwise. -/
def AverageFlow (window : Nat) : Estimator where
  slot := Slot.average_flow
  inner := fun times weights =>
    let wt := lastWindow times window
    let ww := lastWindow weights window
    if wt.length ≥ 2 ∧ ww.length ≥ 2 then
      EstimateResult.ok (endpointFlow wt ww) (wt.getLastD 0)
    else EstimateResult.skip

/-- Modelled from the spec: MedianWeight(window) — median weight over the
most recent up-to-`window` samples; time is the newest sample's time; skip
on empty history. -/
def MedianWeight (window : Nat) : Estimator where
  slot := Slot.median_weight
  inner := fun times weights =>
    let ww := lastWindow weights window
    match (lastWindow times window).getLast? with
    | some t => if ww.isEmpty then EstimateResult.skip
                else EstimateResult.ok (medianQ ww) t
    | none => EstimateResult.skip

/-- Flows over overlapping sub-windows of size `sub` within the window. -/
def subwindowFlows (times weights : List ℚ) (sub : Nat) : List ℚ :=
  (List.range (times.length + 1 - sub)).map
    (fun i => endpointFlow ((times.drop i).take sub) ((weights.drop i).take sub))

/-- Modelled from the spec: MedianFlow(window, subwindow) — the median of
flow rates computed over overlapping sub-windows of size `subwindow` within
the most recent `window` samples; time is the newest sample's time;
requires at least `subwindow` samples, skip otherwise. -/
def MedianFlow (window sub : Nat) : Estimator where
  slot := Slot.median_flow
  inner := fun times weights =>
    let wt := lastWindow times window
    let ww := lastWindow weights window
    if wt.length ≥ sub ∧ ww.length ≥ sub then
      EstimateResult.ok (medianQ (subwindowFlows wt ww sub)) (wt.getLastD 0)
    else EstimateResult.skip

/-- The `self._estimators` list of _singleton_init, in source order:
CurrentWeight, AverageFlow(10), MedianWeight(10), MedianFlow(10, 5). -/
def default_estimators : List Estimator :=
  [CurrentWeight, AverageFlow 10, MedianWeight 10, MedianFlow 10 5]

/-! ### The weight-update hot path -/

/-- The history-append portion of scale_weight_update_subscriber: append the
sample's scale_time and weight, then pop from the front of each list while
it is longer than `_history_max`. -/
def appendSample (p : ScaleProcessor) (swu : ScaleWeightUpdate) : ScaleProcessor :=
  { p with
    _history_time := popWhileOverMax (p._history_time ++ [swu.scale_time]) p._history_max,
    _history_weight := popWhileOverMax (p._history_weight ++ [swu.weight]) p._history_max }

/-- Build the WeightAndFlowUpdate published at the end of the pass: the
triggering sample's timestamps plus a snapshot of every estimator field. -/
def mkWeightAndFlowUpdate (p : ScaleProcessor) (swu : ScaleWeightUpdate) :
    WeightAndFlowUpdate where
  arrival_time := swu.arrival_time
  scale_time := swu.scale_time
  current_weight := p._current_weight
  current_weight_time := p._current_weight_time
  average_flow := p._average_flow
  average_flow_time := p._average_flow_time
  median_weight := p._median_weight
  median_weight_time := p._median_weight_time
  median_flow := p._median_flow
  median_flow_time := p._median_flow_time

/-- scale_weight_update_subscriber: the whole body runs under
`_history_lock`, so it is modelled as one atomic state transition — append
the sample, run every estimator in list order, then publish exactly one
WeightAndFlowUpdate snapshotting the resulting state.  Parametrised by the
estimator list (the source uses `self._estimators` = default_estimators). -/
def scale_weight_update_subscriber (es : List Estimator) (p : ScaleProcessor)
    (swu : ScaleWeightUpdate) : ScaleProcessor × WeightAndFlowUpdate :=
  let p2 := runEstimators es (appendSample p swu)
  (p2, mkWeightAndFlowUpdate p2 swu)

/-- scale_tare_seen_subscriber: awaits `_reset()`, clearing history under
the same `_history_lock`. -/
def scale_tare_seen_subscriber (p : ScaleProcessor) (_sts : ScaleTareSeen) :
    ScaleProcessor :=
  p._reset

/-- An incoming scale event, as dispatched to the processor's subscribers. -/
inductive ScaleEvent where
  | weight (swu : ScaleWeightUpdate)
  | tare (sts : ScaleTareSeen)
deriving DecidableEq, Repr

/-- Dispatch one event: weight updates run the hot path and publish one
derived event; tare events reset the history and publish nothing. -/
def processEvent (p : ScaleProcessor) :
    ScaleEvent → ScaleProcessor × Option WeightAndFlowUpdate
  | ScaleEvent.weight swu =>
    let r := scale_weight_update_subscriber default_estimators p swu
    (r.1, some r.2)
  | ScaleEvent.tare sts => (scale_tare_seen_subscriber p sts, none)

/-- Process a sequence of events (the lock serialises them; the fold order
is their arrival order). -/
def runEvents (p : ScaleProcessor) (evs : List ScaleEvent) : ScaleProcessor :=
  evs.foldl (fun q e => (processEvent q e).1) p

/-- The scale_times of the weight events of a sequence, in order. -/
def weightTimes (evs : List ScaleEvent) : List ℚ :=
  evs.filterMap (fun e => match e with
    | ScaleEvent.weight swu => some swu.scale_time
    | ScaleEvent.tare _ => none)

/-- The History Buffer invariant: the two parallel lists are index-aligned
and within capacity. -/
def history_invariant (p : ScaleProcessor) : Prop :=
  p._history_time.length = p._history_weight.length ∧
  p._history_time.length ≤ p._history_max

instance (p : ScaleProcessor) : Decidable (history_invariant p) := by
  unfold history_invariant
  infer_instance

/-! ### set_scale

The event bus is external; the outcomes of the four bus calls set_scale can
make (unsubscribing the old scale's two sources, subscribing the new one's)
are supplied by an environment.  In the source the two unsubscribes run in
one `asyncio.gather` WITHOUT `return_exceptions=True`, so an exception in
either propagates out of set_scale (we surface the weight-update one first,
matching the argument order); the two subscribes run in a gather WITH
`return_exceptions=True`, so their failures never propagate. -/

/-- Outcomes of the event-bus calls made during one set_scale invocation. -/
structure ScaleEnv where
  unsub_weight : Except String Unit
  unsub_tare : Except String Unit
  sub_weight : Except String Nat
  sub_tare : Except String Nat

/-- ScaleProcessor.set_scale: no-op when `scale` equals the current binding;
otherwise unsubscribe the old scale's two event sources (an exception there
propagates, before `self._scale` is reassigned), rebind, subscribe the new
scale's sources (failures tolerated — the id field just does not receive a
usable id), and finally `_reset()` the history. -/
def set_scale (env : ScaleEnv) (p : ScaleProcessor) (scale : Option Scale) :
    Except String ScaleProcessor :=
  if p._scale = scale then Except.ok p
  else
    match (if p._scale.isSome then env.unsub_weight else Except.ok ()),
          (if p._scale.isSome then env.unsub_tare else Except.ok ()) with
    | Except.error e, _ => Except.error e
    | Except.ok _, Except.error e => Except.error e
    | Except.ok _, Except.ok _ =>
      let p1 := { p with _scale := scale }
      let p2 :=
        if scale.isSome then
          { p1 with
            _scale_weight_update_id := env.sub_weight.toOption,
            _scale_tare_seen_id := env.sub_tare.toOption }
        else p1
      Except.ok p2._reset

/-! ### change_scale_to_id

The BLE stack, the scale factory and the connect/disconnect primitives are
external; their outcomes for one call are supplied by an environment, and
the externally visible calls the method makes are recorded in a trace. -/

/-- A device descriptor as returned by discovery. -/
structure BleDevice where
  address : String
deriving DecidableEq, Repr

/-- Externally visible actions of change_scale_to_id, in call order. -/
inductive Action where
  | resolveCached (id : String)
  | scanFor (id : String)
  | disconnect (scaleId : Nat)
  | connect (scaleId : Nat)
  | decommission (scaleId : Nat)
deriving DecidableEq, Repr

/-- Outcomes of the external calls one change_scale_to_id invocation can
make: the DiscoveredDevices cache lookup, the fallback scan, the
scale_factory result, the mid-body disconnect of the current scale, the
connect of the new scale, the finally-clause disconnect of the old scale
(`await old_scale.disconnect()` can raise, like any disconnect), and the
set_scale bus outcomes. -/
structure ChangeEnv where
  scaleEnv : ScaleEnv
  cached : Option BleDevice
  scanned : Option BleDevice
  factory : Option Scale
  disconnect_result : Except String Unit
  connect_result : Except String Unit
  old_disconnect_result : Except String Unit

/-- The `try` body of change_scale_to_id for a non-null id, after the
no-op guard: resolve the id (cache first, then bounded scan), failing with
DE1NoAddressError if both miss; disconnect the currently bound scale
(`except AttributeError: pass` covers the unbound case only — other
exceptions propagate); build a scale via scale_factory, failing with
DE1APIValueError on None; bind it via set_scale; connect it.  Returns the
processor state as of the exit point (needed by the `finally` clause), the
outcome, and the trace. -/
def change_scale_body (env : ChangeEnv) (p : ScaleProcessor) (id : String) :
    ScaleProcessor × Except String Unit × List Action :=
  let resolved : Option BleDevice × List Action :=
    match env.cached with
    | some d => (some d, [Action.resolveCached id])
    | none => (env.scanned, [Action.resolveCached id, Action.scanFor id])
  match resolved with
  | (none, tr) =>
    (p, Except.error ("Unable to find device with id: " ++ id), tr)
  | (some _dev, tr) =>
    let afterDisc : Except String Unit × List Action :=
      match p._scale with
      | none => (Except.ok (), tr)
      | some s => (env.disconnect_result, tr ++ [Action.disconnect s.id])
    match afterDisc with
    | (Except.error e, tr1) => (p, Except.error e, tr1)
    | (Except.ok _, tr1) =>
      match env.factory with
      | none => (p, Except.error ("No scale could be created from " ++ id), tr1)
      | some new_scale =>
        match set_scale env.scaleEnv p (some new_scale) with
        | Except.error e => (p, Except.error e, tr1)
        | Except.ok q =>
          match env.connect_result with
          | Except.error e => (q, Except.error e, tr1 ++ [Action.connect new_scale.id])
          | Except.ok _ => (q, Except.ok (), tr1 ++ [Action.connect new_scale.id])

/-- The whole `try` body of change_scale_to_id after the no-op guard: a
null id means `set_scale(None)` (whose unsubscribe exceptions propagate,
leaving the state untouched); a non-null id runs the resolve / disconnect /
construct / bind / connect body. -/
def change_scale_try (env : ChangeEnv) (p : ScaleProcessor)
    (ble_device_id : Option String) :
    ScaleProcessor × Except String Unit × List Action :=
  match ble_device_id with
  | none =>
    match set_scale env.scaleEnv p none with
    | Except.ok q => (q, Except.ok (), [])
    | Except.error e => (p, Except.error e, [])
  | some id => change_scale_body env p id

/-- The `finally` clause of change_scale_to_id: when a scale was bound
before the call and the bound object changed, `await old_scale.disconnect()`
runs first — if it raises, `old_scale.decommission()` is skipped and the
exception replaces the in-flight outcome (Python finally semantics);
decommission happens only after a successful cleanup disconnect. -/
def change_scale_finally (env : ChangeEnv) (old_scale : Option Scale)
    (body : ScaleProcessor × Except String Unit × List Action) :
    ScaleProcessor × Except String Unit × List Action :=
  match old_scale with
  | some o =>
    if body.1._scale ≠ some o then
      match env.old_disconnect_result with
      | Except.error e =>
        (body.1, Except.error e, body.2.2 ++ [Action.disconnect o.id])
      | Except.ok _ =>
        (body.1, body.2.1,
          body.2.2 ++ [Action.disconnect o.id, Action.decommission o.id])
    else (body.1, body.2.1, body.2.2)
  | none => (body.1, body.2.1, body.2.2)

/-- ScaleProcessor.change_scale_to_id: returns immediately when the
requested id already equals the current scale's address (both None when
unbound); otherwise runs the try body and then the finally clause over the
scale reference captured before the body. -/
def change_scale_to_id (env : ChangeEnv) (p : ScaleProcessor)
    (ble_device_id : Option String) :
    ScaleProcessor × Except String Unit × List Action :=
  if p.scale_address = ble_device_id then (p, Except.ok (), [])
  else change_scale_finally env p._scale (change_scale_try env p ble_device_id)

/-! ### HTTP configuration section (src/pyDE1/config.py) -/

/-- The bluetooth section defaults set in Config._Bluetooth.__init__
(time-valued fields; seconds). -/
structure BluetoothSection where
  SCAN_TIME : ℚ
  CONNECT_TIMEOUT : ℚ
  DISCONNECT_TIMEOUT : ℚ
  SCAN_CACHE_EXPIRY : ℚ
  RECONNECT_MAX_INTERVAL : ℚ
deriving DecidableEq, Repr

/-- Config._Bluetooth.__init__ defaults. -/
def bluetoothInit : BluetoothSection where
  SCAN_TIME := 5
  CONNECT_TIMEOUT := 10
  DISCONNECT_TIMEOUT := 5
  SCAN_CACHE_EXPIRY := 300
  RECONNECT_MAX_INTERVAL := 10

/-- The HTTP section state (numeric fields; `_response_timeout` starts
None and is written only by the RESPONSE_TIMEOUT setter). -/
structure HTTPSection where
  SERVER_PORT : Nat
  PATCH_SIZE_LIMIT : Nat
  ASYNC_TIMEOUT : ℚ
  PROFILE_TIMEOUT : ℚ
  _response_timeout : Option ℚ
deriving DecidableEq, Repr

/-- Config._HTTP.__init__ defaults. -/
def httpInit : HTTPSection where
  SERVER_PORT := 1234
  PATCH_SIZE_LIMIT := 16384
  ASYNC_TIMEOUT := 1
  PROFILE_TIMEOUT := 9 / 2
  _response_timeout := none

/-- Python truthiness of `self._response_timeout`: None and 0.0 are falsy,
every other float is truthy. -/
def truthyQ : Option ℚ → Bool
  | none => false
  | some v => v != 0

/-- The RESPONSE_TIMEOUT property getter: the stored value when truthy,
otherwise SCAN_TIME + CONNECT_TIMEOUT + ASYNC_TIMEOUT + 0.100. -/
def HTTPSection.RESPONSE_TIMEOUT (h : HTTPSection) (bt : BluetoothSection) : ℚ :=
  if truthyQ h._response_timeout then h._response_timeout.getD 0
  else bt.SCAN_TIME + bt.CONNECT_TIMEOUT + h.ASYNC_TIMEOUT + 1 / 10

/-- The RESPONSE_TIMEOUT property setter: stores the assigned value in
`_response_timeout`. -/
def HTTPSection.set_RESPONSE_TIMEOUT (h : HTTPSection) (value : Option ℚ) :
    HTTPSection :=
  { h with _response_timeout := value }

/-! ### Concrete fixtures used by witnesses and counterexamples -/

/-- A concrete scale object. -/
def scaleA : Scale where
  id := 1
  address := "AA:BB:CC:DD:EE:FF"
  name := "Skale"
  type' := "skale"
  connectivity := ConnectivityEnum.CONNECTED
  is_connected := true

/-- A second, distinct concrete scale object. -/
def scaleB : Scale where
  id := 2
  address := "11:22:33:44:55:66"
  name := "Acaia"
  type' := "acaia"
  connectivity := ConnectivityEnum.NOT_CONNECTED
  is_connected := false

/-- A set_scale environment in which every event-bus call succeeds. -/
def envAllOk : ScaleEnv where
  unsub_weight := Except.ok ()
  unsub_tare := Except.ok ()
  sub_weight := Except.ok 11
  sub_tare := Except.ok 12

/-- A set_scale environment whose weight-update unsubscribe raises. -/
def envUnsubFail : ScaleEnv where
  unsub_weight := Except.error "unsubscribe failed"
  unsub_tare := Except.ok ()
  sub_weight := Except.ok 21
  sub_tare := Except.ok 22

/-- A processor bound to scaleA, with some history and estimator state. -/
def procA : ScaleProcessor :=
  { ScaleProcessor._singleton_init with
    _scale := some scaleA
    _scale_weight_update_id := some 1
    _scale_tare_seen_id := some 2
    _history_time := [1, 2]
    _history_weight := [7, 9]
    _current_weight := 9
    _current_weight_time := 2 }

/-- An unbound processor carrying nonzero estimator state and history. -/
def procUnbound5 : ScaleProcessor :=
  { ScaleProcessor._singleton_init with
    _history_time := [1]
    _history_weight := [2]
    _current_weight := 5
    _current_weight_time := 1 }

/-- A change_scale_to_id environment with every external call succeeding,
resolving to scaleB's device from the cache. -/
def changeEnvOk : ChangeEnv where
  scaleEnv := envAllOk
  cached := some { address := "11:22:33:44:55:66" }
  scanned := none
  factory := some scaleB
  disconnect_result := Except.ok ()
  connect_result := Except.ok ()
  old_disconnect_result := Except.ok ()

/-- A change_scale_to_id environment in which the device resolves from the
cache but scale_factory yields no scale. -/
def changeEnvFactoryFail : ChangeEnv where
  scaleEnv := envAllOk
  cached := some { address := "11:22:33:44:55:66" }
  scanned := none
  factory := none
  disconnect_result := Except.ok ()
  connect_result := Except.ok ()
  old_disconnect_result := Except.ok ()

/-- A change_scale_to_id environment in which the swap itself succeeds but
the finally-clause disconnect of the old scale raises. -/
def changeEnvOldDiscFail : ChangeEnv :=
  { changeEnvOk with old_disconnect_result := Except.error "old disconnect failed" }

/-! ### Claim theorems -/

/-- C8: whenever no scale is bound, the read-only accessors never raise and
return defined empty values — scale_connectivity is NOT_CONNECTED and
scale_address, scale_name and scale_type are each None. -/
theorem C8_null_safe_accessors (p : ScaleProcessor) (h : p._scale = none) :
    p.scale_address = none ∧ p.scale_name = none ∧ p.scale_type = none ∧
    p.scale_connectivity = ConnectivityEnum.NOT_CONNECTED := by
  simp [ScaleProcessor.scale_address, ScaleProcessor.scale_name,
    ScaleProcessor.scale_type, ScaleProcessor.scale_connectivity,
    ScaleProcessor.scale, h]

/-- Witness for C8 at the freshly initialised (unbound) processor. -/
theorem C8_null_safe_accessors_witness :
    ScaleProcessor._singleton_init.scale_address = none ∧
    ScaleProcessor._singleton_init.scale_name = none ∧
    ScaleProcessor._singleton_init.scale_type = none ∧
    ScaleProcessor._singleton_init.scale_connectivity
      = ConnectivityEnum.NOT_CONNECTED :=
  C8_null_safe_accessors ScaleProcessor._singleton_init rfl

/-- C10: reading RESPONSE_TIMEOUT returns the most recently assigned value
whenever it is truthy (non-None, nonzero); otherwise — never assigned, or
assigned None or 0 — it returns bluetooth.SCAN_TIME +
bluetooth.CONNECT_TIMEOUT + http.ASYNC_TIMEOUT + 0.100. -/
theorem C10_response_timeout (bt : BluetoothSection) (h : HTTPSection) (x : ℚ)
    (hx : x ≠ 0) :
    (h.set_RESPONSE_TIMEOUT (some x)).RESPONSE_TIMEOUT bt = x ∧
    (h.set_RESPONSE_TIMEOUT (some 0)).RESPONSE_TIMEOUT bt
      = bt.SCAN_TIME + bt.CONNECT_TIMEOUT + h.ASYNC_TIMEOUT + 1 / 10 ∧
    (h.set_RESPONSE_TIMEOUT none).RESPONSE_TIMEOUT bt
      = bt.SCAN_TIME + bt.CONNECT_TIMEOUT + h.ASYNC_TIMEOUT + 1 / 10 ∧
    httpInit.RESPONSE_TIMEOUT bt
      = bt.SCAN_TIME + bt.CONNECT_TIMEOUT + 1 + 1 / 10 := by
  refine ⟨?_, ?_, ?_, ?_⟩ <;>
    simp [HTTPSection.RESPONSE_TIMEOUT, HTTPSection.set_RESPONSE_TIMEOUT,
      truthyQ, httpInit, hx]

/-- Witness for C10 at the default config sections with value 3. -/
theorem C10_response_timeout_witness :
    (httpInit.set_RESPONSE_TIMEOUT (some 3)).RESPONSE_TIMEOUT bluetoothInit = 3 ∧
    (httpInit.set_RESPONSE_TIMEOUT (some 0)).RESPONSE_TIMEOUT bluetoothInit
      = bluetoothInit.SCAN_TIME + bluetoothInit.CONNECT_TIMEOUT
        + httpInit.ASYNC_TIMEOUT + 1 / 10 ∧
    (httpInit.set_RESPONSE_TIMEOUT none).RESPONSE_TIMEOUT bluetoothInit
      = bluetoothInit.SCAN_TIME + bluetoothInit.CONNECT_TIMEOUT
        + httpInit.ASYNC_TIMEOUT + 1 / 10 ∧
    httpInit.RESPONSE_TIMEOUT bluetoothInit
      = bluetoothInit.SCAN_TIME + bluetoothInit.CONNECT_TIMEOUT + 1 + 1 / 10 :=
  C10_response_timeout bluetoothInit httpInit 3 (by norm_num)

/-- C6: change_scale_to_id is idempotent at the top level — a call whose id
equals the bound scale's address, and a null call while unbound, return
immediately with the state untouched and an empty external-action trace
(no resolution, no disconnect, no connect). -/
theorem C6_change_scale_to_id_idempotent (env : ChangeEnv) (p : ScaleProcessor)
    (s : Scale) :
    (p._scale = some s →
      change_scale_to_id env p (some s.address) = (p, Except.ok (), [])) ∧
    (p._scale = none →
      change_scale_to_id env p none = (p, Except.ok (), [])) := by
  constructor <;> intro h <;>
    simp [change_scale_to_id, ScaleProcessor.scale_address,
      ScaleProcessor.scale, h]

/-- Witness for C6: a repeat request for the bound scale's own address, and
a null request on the fresh unbound processor. -/
theorem C6_change_scale_to_id_idempotent_witness :
    change_scale_to_id changeEnvOk procA (some scaleA.address)
      = (procA, Except.ok (), []) ∧
    change_scale_to_id changeEnvOk ScaleProcessor._singleton_init none
      = (ScaleProcessor._singleton_init, Except.ok (), []) :=
  ⟨(C6_change_scale_to_id_idempotent changeEnvOk procA scaleA).1 rfl,
   (C6_change_scale_to_id_idempotent changeEnvOk
      ScaleProcessor._singleton_init scaleA).2 rfl⟩

/-- C1 counterexample: a successful rebind (unbound → scaleA, all bus calls
succeeding) leaves `_current_weight` at its prior value 5, not at its zero
initial value — the claim that every EstimatorState pair is reset on a
successful rebind is false (the history buffer, by contrast, is cleared). -/
theorem C1_counterexample :
    (set_scale envAllOk procUnbound5 (some scaleA)).toOption.map
        (fun q => q._current_weight) = some 5 ∧
    (set_scale envAllOk procUnbound5 (some scaleA)).toOption.map
        (fun q => q._history_time) = some [] ∧
    (5 : ℚ) ≠ 0 := by
  refine ⟨rfl, rfl, by norm_num⟩

/-- C1 (amended): after every successful rebind (new scale differing from
the bound one, including rebinding to no scale) the History Buffer is
empty, while every EstimatorState pair retains the value it had before the
call — set_scale resets history only, never the estimator fields. -/
theorem C1_rebind_clears_history_not_estimators (env : ScaleEnv)
    (p : ScaleProcessor) (s : Option Scale) (q : ScaleProcessor)
    (hne : p._scale ≠ s) (hok : set_scale env p s = Except.ok q) :
    q._history_time = [] ∧ q._history_weight = [] ∧
    q._current_weight = p._current_weight ∧
    q._current_weight_time = p._current_weight_time ∧
    q._average_flow = p._average_flow ∧
    q._average_flow_time = p._average_flow_time ∧
    q._median_weight = p._median_weight ∧
    q._median_weight_time = p._median_weight_time ∧
    q._median_flow = p._median_flow ∧
    q._median_flow_time = p._median_flow_time := by
  unfold set_scale at hok
  rw [if_neg hne] at hok
  split at hok
  · exact absurd hok (by simp)
  · exact absurd hok (by simp)
  · rw [Except.ok.injEq] at hok
    subst hok
    split <;> simp [ScaleProcessor._reset]

/-- Witness for C1 (amended): the concrete successful rebind of the
counterexample, with all ten conjuncts evaluated. -/
theorem C1_rebind_clears_history_not_estimators_witness :
    ((set_scale envAllOk procUnbound5 (some scaleA)).toOption.getD procA)._history_time = [] ∧
    ((set_scale envAllOk procUnbound5 (some scaleA)).toOption.getD procA)._history_weight = [] ∧
    ((set_scale envAllOk procUnbound5 (some scaleA)).toOption.getD procA)._current_weight
      = procUnbound5._current_weight ∧
    ((set_scale envAllOk procUnbound5 (some scaleA)).toOption.getD procA)._current_weight_time
      = procUnbound5._current_weight_time ∧
    ((set_scale envAllOk procUnbound5 (some scaleA)).toOption.getD procA)._average_flow
      = procUnbound5._average_flow ∧
    ((set_scale envAllOk procUnbound5 (some scaleA)).toOption.getD procA)._average_flow_time
      = procUnbound5._average_flow_time ∧
    ((set_scale envAllOk procUnbound5 (some scaleA)).toOption.getD procA)._median_weight
      = procUnbound5._median_weight ∧
    ((set_scale envAllOk procUnbound5 (some scaleA)).toOption.getD procA)._median_weight_time
      = procUnbound5._median_weight_time ∧
    ((set_scale envAllOk procUnbound5 (some scaleA)).toOption.getD procA)._median_flow
      = procUnbound5._median_flow ∧
    ((set_scale envAllOk procUnbound5 (some scaleA)).toOption.getD procA)._median_flow_time
      = procUnbound5._median_flow_time := by
  have h := C1_rebind_clears_history_not_estimators envAllOk procUnbound5
    (some scaleA) ((set_scale envAllOk procUnbound5 (some scaleA)).toOption.getD procA)
    (by decide) (by decide)
  exact h

/-- C3 counterexample: with the old scale bound and the weight-update
unsubscribe raising, set_scale propagates the exception to its caller
instead of proceeding to rebind — the claim that unsubscribe failures are
logged and tolerated is false. -/
theorem C3_counterexample :
    set_scale envUnsubFail procA (some scaleB)
      = Except.error "unsubscribe failed" := by
  decide

/-- C3 (amended): during set_scale with a scale currently bound, a raised
exception from either unsubscribe on the old scale's event sources
propagates to the caller; the rebind, resubscription and history reset do
not happen (the source gathers the unsubscribes without
return_exceptions=True, unlike the subscribes). -/
theorem C3_unsubscribe_failure_propagates (env : ScaleEnv)
    (p : ScaleProcessor) (s : Option Scale) (a : Scale) (e : String)
    (hb : p._scale = some a) (hne : p._scale ≠ s) :
    (env.unsub_weight = Except.error e → set_scale env p s = Except.error e) ∧
    (env.unsub_weight = Except.ok () → env.unsub_tare = Except.error e →
      set_scale env p s = Except.error e) := by
  constructor
  · intro hw
    unfold set_scale
    rw [if_neg hne]
    simp [hb, hw]
  · intro hw ht
    unfold set_scale
    rw [if_neg hne]
    simp [hb, hw, ht]

/-- Witness for C3 (amended): the bound processor with a failing
weight-update unsubscribe, and with a failing tare-seen unsubscribe. -/
theorem C3_unsubscribe_failure_propagates_witness :
    set_scale envUnsubFail procA (some scaleB)
      = Except.error "unsubscribe failed" ∧
    set_scale { envAllOk with unsub_tare := Except.error "tare unsub failed" }
        procA (some scaleB)
      = Except.error "tare unsub failed" :=
  ⟨(C3_unsubscribe_failure_propagates envUnsubFail procA (some scaleB) scaleA
      "unsubscribe failed" rfl (by decide)).1 rfl,
   (C3_unsubscribe_failure_propagates
      { envAllOk with unsub_tare := Except.error "tare unsub failed" }
      procA (some scaleB) scaleA "tare unsub failed" rfl (by decide)).2 rfl rfl⟩

/-! ### History-buffer lemmas -/

/-- Popping from the front while over capacity is dropping the excess
oldest elements. -/
theorem popWhileOverMax_eq_drop {α : Type} (l : List α) (max : Nat) :
    popWhileOverMax l max = l.drop (l.length - max) := by
  induction l with
  | nil => simp [popWhileOverMax]
  | cons x t ih =>
    simp only [popWhileOverMax, List.length_cons]
    split
    · next hgt =>
      have hsub : t.length + 1 - max = (t.length - max) + 1 := by omega
      rw [ih, hsub, List.drop_succ_cons]
    · next hle =>
      have hsub : t.length + 1 - max = 0 := by omega
      rw [hsub, List.drop_zero]

/-- Length after the capacity loop. -/
theorem length_popWhileOverMax {α : Type} (l : List α) (max : Nat) :
    (popWhileOverMax l max).length = l.length - (l.length - max) := by
  rw [popWhileOverMax_eq_drop, List.length_drop]

/-- The capacity loop yields a sublist of its input (only front elements
are removed). -/
theorem popWhileOverMax_subset {α : Type} (l : List α) (max : Nat) :
    popWhileOverMax l max ⊆ l := by
  rw [popWhileOverMax_eq_drop]
  exact List.drop_subset _ l

/-- Estimator runs never touch the history lists or the capacity: an
estimator writes only its value/time slot. -/
theorem estimate_preserves_history (e : Estimator) (p : ScaleProcessor) :
    (e.estimate p)._history_time = p._history_time ∧
    (e.estimate p)._history_weight = p._history_weight ∧
    (e.estimate p)._history_max = p._history_max := by
  unfold Estimator.estimate
  split
  · cases e.slot <;> simp [writeSlot]
  · exact ⟨rfl, rfl, rfl⟩
  · exact ⟨rfl, rfl, rfl⟩

/-- The whole pipeline never touches the history lists or the capacity. -/
theorem runEstimators_preserves_history (es : List Estimator)
    (p : ScaleProcessor) :
    (runEstimators es p)._history_time = p._history_time ∧
    (runEstimators es p)._history_weight = p._history_weight ∧
    (runEstimators es p)._history_max = p._history_max := by
  induction es generalizing p with
  | nil => exact ⟨rfl, rfl, rfl⟩
  | cons e rest ih =>
    have h1 := estimate_preserves_history e p
    have h2 := ih (e.estimate p)
    simp only [runEstimators, List.foldl_cons] at *
    exact ⟨h2.1.trans h1.1, h2.2.1.trans h1.2.1, h2.2.2.trans h1.2.2⟩

/-- One append step preserves the invariant. -/
theorem appendSample_invariant (p : ScaleProcessor) (swu : ScaleWeightUpdate)
    (h : history_invariant p) : history_invariant (appendSample p swu) := by
  obtain ⟨hlen, _⟩ := h
  unfold history_invariant appendSample
  simp only [length_popWhileOverMax, List.length_append, List.length_cons,
    List.length_nil]
  omega

/-- Any event step (weight update or tare) preserves the invariant. -/
theorem processEvent_invariant (p : ScaleProcessor) (e : ScaleEvent)
    (h : history_invariant p) : history_invariant (processEvent p e).1 := by
  cases e with
  | weight swu =>
    have hap := appendSample_invariant p swu h
    have hrun := runEstimators_preserves_history default_estimators
      (appendSample p swu)
    simp only [processEvent, scale_weight_update_subscriber]
    unfold history_invariant at hap ⊢
    rw [hrun.1, hrun.2.1, hrun.2.2]
    exact hap
  | tare sts =>
    unfold history_invariant at h ⊢
    simp [processEvent, scale_tare_seen_subscriber, ScaleProcessor._reset]

/-- Any event sequence preserves the invariant. -/
theorem runEvents_invariant (p : ScaleProcessor) (evs : List ScaleEvent)
    (h : history_invariant p) : history_invariant (runEvents p evs) := by
  induction evs generalizing p with
  | nil => exact h
  | cons e rest ih =>
    simp only [runEvents, List.foldl_cons]
    exact ih (processEvent p e).1 (processEvent_invariant p e h)

/-- C4: across any sequence of appended samples interleaved with clears,
len(_history_time) = len(_history_weight) ≤ _history_max holds after every
step, and an append that would exceed capacity evicts the oldest (front)
samples first: the new lists are exactly the appended lists with the
excess dropped from the front. -/
theorem C4_history_invariant_fifo (p : ScaleProcessor) (evs : List ScaleEvent)
    (swu : ScaleWeightUpdate) (h : history_invariant p) :
    history_invariant (runEvents p evs) ∧
    (appendSample p swu)._history_time
      = (p._history_time ++ [swu.scale_time]).drop
          (p._history_time.length + 1 - p._history_max) ∧
    (appendSample p swu)._history_weight
      = (p._history_weight ++ [swu.weight]).drop
          (p._history_weight.length + 1 - p._history_max) := by
  refine ⟨runEvents_invariant p evs h, ?_, ?_⟩ <;>
    simp [appendSample, popWhileOverMax_eq_drop]

/-- Witness for C4: from the fresh processor, three appends and a tare, and
one concrete over-capacity append (capacity 2 reached, oldest evicted). -/
theorem C4_history_invariant_fifo_witness :
    history_invariant
      (runEvents ScaleProcessor._singleton_init
        [ScaleEvent.weight { arrival_time := 1, scale_time := 1, weight := 5 },
         ScaleEvent.weight { arrival_time := 2, scale_time := 2, weight := 6 },
         ScaleEvent.tare { arrival_time := 3, scale_time := 3 },
         ScaleEvent.weight { arrival_time := 4, scale_time := 4, weight := 7 }]) ∧
    (appendSample
        { ScaleProcessor._singleton_init with
          _history_max := 2, _history_time := [1, 2], _history_weight := [5, 6] }
        { arrival_time := 3, scale_time := 3, weight := 7 })._history_time
      = ([1, 2] ++ [(3 : ℚ)]).drop (2 + 1 - 2) ∧
    (appendSample
        { ScaleProcessor._singleton_init with
          _history_max := 2, _history_time := [1, 2], _history_weight := [5, 6] }
        { arrival_time := 3, scale_time := 3, weight := 7 })._history_weight
      = ([5, 6] ++ [(7 : ℚ)]).drop (2 + 1 - 2) := by
  have h := C4_history_invariant_fifo
    { ScaleProcessor._singleton_init with
      _history_max := 2, _history_time := [1, 2], _history_weight := [5, 6] }
    [] { arrival_time := 3, scale_time := 3, weight := 7 } (by decide)
  refine ⟨?_, h.2.1, h.2.2⟩
  have h0 := C4_history_invariant_fifo ScaleProcessor._singleton_init
    [ScaleEvent.weight { arrival_time := 1, scale_time := 1, weight := 5 },
     ScaleEvent.weight { arrival_time := 2, scale_time := 2, weight := 6 },
     ScaleEvent.tare { arrival_time := 3, scale_time := 3 },
     ScaleEvent.weight { arrival_time := 4, scale_time := 4, weight := 7 }]
    { arrival_time := 3, scale_time := 3, weight := 7 } (by decide)
  exact h0.1

/-! ### Tare isolation -/

/-- Any sample time in the history after running an event sequence was
either already in the history or came from a weight event of the
sequence. -/
theorem mem_history_runEvents (evs : List ScaleEvent) (p : ScaleProcessor)
    (t : ℚ) (h : t ∈ (runEvents p evs)._history_time) :
    t ∈ p._history_time ∨ t ∈ weightTimes evs := by
  induction evs generalizing p with
  | nil => exact Or.inl h
  | cons e rest ih =>
    simp only [runEvents, List.foldl_cons] at h
    have step := ih (processEvent p e).1 h
    cases e with
    | weight swu =>
      rcases step with hin | hin
      · simp only [processEvent, scale_weight_update_subscriber] at hin
        rw [(runEstimators_preserves_history default_estimators
          (appendSample p swu)).1] at hin
        have hsub := popWhileOverMax_subset
          (p._history_time ++ [swu.scale_time]) p._history_max
        have := hsub hin
        rcases List.mem_append.mp this with h1 | h1
        · exact Or.inl h1
        · right
          simp only [weightTimes, List.filterMap_cons]
          simp only [List.mem_singleton] at h1
          simp [h1]
      · right
        simp [weightTimes, List.filterMap_cons]
        right
        simpa [weightTimes] using hin
    | tare sts =>
      rcases step with hin | hin
      · simp [processEvent, scale_tare_seen_subscriber,
          ScaleProcessor._reset] at hin
      · right
        simpa [weightTimes, List.filterMap_cons] using hin

/-- C7: processing a TareEvent clears the whole history buffer (modelled as
one atomic step, as the source holds the same `_history_lock` as the
weight-update path), so every estimator pass after the tare runs on a
history containing no sample appended before the tare: any time found in
the history later comes from a weight event after the tare. -/
theorem C7_tare_isolation (p : ScaleProcessor) (sts : ScaleTareSeen)
    (evs : List ScaleEvent) (t : ℚ)
    (h : t ∈ (runEvents p (ScaleEvent.tare sts :: evs))._history_time) :
    (processEvent p (ScaleEvent.tare sts)).1._history_time = [] ∧
    (processEvent p (ScaleEvent.tare sts)).1._history_weight = [] ∧
    t ∈ weightTimes evs := by
  refine ⟨rfl, rfl, ?_⟩
  simp only [runEvents, List.foldl_cons] at h
  have := mem_history_runEvents evs (processEvent p (ScaleEvent.tare sts)).1 t h
  rcases this with hin | hin
  · simp [processEvent, scale_tare_seen_subscriber,
      ScaleProcessor._reset] at hin
  · exact hin

/-- Witness for C7: the bound processor with prior history [1, 2] receives
a tare, then one weight sample at scale_time 11; 11 is in the resulting
history and is indeed the time of a post-tare weight event. -/
theorem C7_tare_isolation_witness :
    (processEvent procA
        (ScaleEvent.tare { arrival_time := 3, scale_time := 3 })).1._history_time
      = [] ∧
    (processEvent procA
        (ScaleEvent.tare { arrival_time := 3, scale_time := 3 })).1._history_weight
      = [] ∧
    (11 : ℚ) ∈ weightTimes
      [ScaleEvent.weight { arrival_time := 10, scale_time := 11, weight := 12 }] :=
  C7_tare_isolation procA { arrival_time := 3, scale_time := 3 }
    [ScaleEvent.weight { arrival_time := 10, scale_time := 11, weight := 12 }]
    11 (by decide)

/-! ### Estimator failure isolation -/

/-- C2 (estimator.py modelled from the spec): if one estimator's inner
computation raises on the pass's history, the exception is caught, that
estimator's EstimatorState is retained, every other estimator still runs,
and the single WeightAndFlowUpdate of the pass is still published — the
whole pass is exactly the pass with the failing estimator absent. -/
theorem C2_estimator_failure_isolated (p : ScaleProcessor)
    (swu : ScaleWeightUpdate) (pre post : List Estimator) (e : Estimator)
    (msg : String)
    (herr : e.inner (appendSample p swu)._history_time
        (appendSample p swu)._history_weight = EstimateResult.error msg) :
    scale_weight_update_subscriber (pre ++ e :: post) p swu
      = scale_weight_update_subscriber (pre ++ post) p swu := by
  have hmid : Estimator.estimate e (runEstimators pre (appendSample p swu))
      = runEstimators pre (appendSample p swu) := by
    have hp := runEstimators_preserves_history pre (appendSample p swu)
    unfold Estimator.estimate
    rw [hp.1, hp.2.1, herr]
  have hrun : runEstimators (pre ++ e :: post) (appendSample p swu)
      = runEstimators (pre ++ post) (appendSample p swu) := by
    unfold runEstimators
    rw [List.foldl_append, List.foldl_append, List.foldl_cons]
    rw [show List.foldl (fun q f => Estimator.estimate f q)
        (appendSample p swu) pre = runEstimators pre (appendSample p swu) from rfl]
    rw [hmid]
  unfold scale_weight_update_subscriber
  rw [hrun]

/-- Witness for C2: an always-raising estimator inserted between
CurrentWeight and MedianWeight(10) changes nothing about the pass. -/
theorem C2_estimator_failure_isolated_witness :
    scale_weight_update_subscriber
        ([CurrentWeight] ++
          { slot := Slot.average_flow,
            inner := fun _ _ => EstimateResult.error "boom" } :: [MedianWeight 10])
        ScaleProcessor._singleton_init
        { arrival_time := 1, scale_time := 2, weight := 3 }
      = scale_weight_update_subscriber ([CurrentWeight] ++ [MedianWeight 10])
          ScaleProcessor._singleton_init
          { arrival_time := 1, scale_time := 2, weight := 3 } :=
  C2_estimator_failure_isolated ScaleProcessor._singleton_init
    { arrival_time := 1, scale_time := 2, weight := 3 }
    [CurrentWeight] [MedianWeight 10]
    { slot := Slot.average_flow, inner := fun _ _ => EstimateResult.error "boom" }
    "boom" rfl

/-! ### Hot-path ordering and snapshot publication -/

/-- C5: on every new weight sample the pass (one atomic unit under
`_history_lock` in the source) first appends the sample to the history,
then runs the four estimators in the fixed order CurrentWeight,
AverageFlow(10), MedianWeight(10), MedianFlow(10, 5), and publishes exactly
one WeightAndFlowUpdate whose fields are the triggering sample's
arrival_time and scale_time together with every post-pass EstimatorState
(value, time) pair. -/
theorem C5_pipeline_order_and_snapshot (p : ScaleProcessor)
    (swu : ScaleWeightUpdate) :
    (scale_weight_update_subscriber default_estimators p swu).1
      = (MedianFlow 10 5).estimate ((MedianWeight 10).estimate
          ((AverageFlow 10).estimate (CurrentWeight.estimate
            (appendSample p swu)))) ∧
    (scale_weight_update_subscriber default_estimators p swu).2
      = { arrival_time := swu.arrival_time
          scale_time := swu.scale_time
          current_weight :=
            (scale_weight_update_subscriber default_estimators p swu).1._current_weight
          current_weight_time :=
            (scale_weight_update_subscriber default_estimators p swu).1._current_weight_time
          average_flow :=
            (scale_weight_update_subscriber default_estimators p swu).1._average_flow
          average_flow_time :=
            (scale_weight_update_subscriber default_estimators p swu).1._average_flow_time
          median_weight :=
            (scale_weight_update_subscriber default_estimators p swu).1._median_weight
          median_weight_time :=
            (scale_weight_update_subscriber default_estimators p swu).1._median_weight_time
          median_flow :=
            (scale_weight_update_subscriber default_estimators p swu).1._median_flow
          median_flow_time :=
            (scale_weight_update_subscriber default_estimators p swu).1._median_flow_time } := by
  constructor
  · simp only [scale_weight_update_subscriber, default_estimators,
      runEstimators, List.foldl_cons, List.foldl_nil]
  · simp only [scale_weight_update_subscriber, mkWeightAndFlowUpdate]

/-! ### Old-scale teardown in change_scale_to_id -/

/-- The try body of change_scale_to_id never decommissions anything: the
decommission call lives only in the finally clause. -/
theorem change_scale_body_no_decommission (env : ChangeEnv)
    (p : ScaleProcessor) (id : String) (n : Nat) :
    Action.decommission n ∉ (change_scale_body env p id).2.2 := by
  unfold change_scale_body
  rcases hc : env.cached with _ | d <;>
    rcases hs : env.scanned with _ | d2 <;>
      rcases hps : p._scale with _ | s <;>
        rcases hd : env.disconnect_result with e1 | u1 <;>
          rcases hf : env.factory with _ | ns <;>
            rcases hcr : env.connect_result with e2 | u2 <;>
              simp_all <;> (try split) <;> simp_all

/-- C9 counterexample: with scaleA bound and a request for a resolvable
device for which scale_factory yields no scale, the call fails, the bound
scale object is unchanged — and yet its disconnect was called mid-body, so
"if the bound scale is unchanged, no disconnect of it occurs" is false. -/
theorem C9_counterexample :
    (change_scale_to_id changeEnvFactoryFail procA
        (some "11:22:33:44:55:66")).1._scale = procA._scale ∧
    Action.disconnect scaleA.id
      ∈ (change_scale_to_id changeEnvFactoryFail procA
          (some "11:22:33:44:55:66")).2.2 := by
  exact ⟨by decide, by decide⟩

/-- The try body (null or non-null id) never decommissions anything. -/
theorem change_scale_try_no_decommission (env : ChangeEnv)
    (p : ScaleProcessor) (id : Option String) (n : Nat) :
    Action.decommission n ∉ (change_scale_try env p id).2.2 := by
  unfold change_scale_try
  rcases id with _ | i
  · rcases hss : set_scale env.scaleEnv p none with e | q <;> simp [hss]
  · exact change_scale_body_no_decommission env p i n

/-- The finally clause never changes the processor state, whatever the
cleanup disconnect's outcome. -/
theorem change_scale_finally_fst (env : ChangeEnv) (old_scale : Option Scale)
    (body : ScaleProcessor × Except String Unit × List Action) :
    (change_scale_finally env old_scale body).1 = body.1 := by
  unfold change_scale_finally
  rcases old_scale with _ | o
  · rfl
  · dsimp only
    split
    · rcases h : env.old_disconnect_result with e | u <;> simp [h]
    · rfl

/-- C9 (amended): in every branch of change_scale_to_id, once the call
completes, if the scale object bound before the call differs from the one
bound after, the previous scale's disconnect is invoked after the swap and
it is decommissioned exactly when that disconnect does not raise — a
raising cleanup disconnect skips decommission and propagates as the call's
outcome; if the bound scale is unchanged it is never decommissioned,
though the body's own pre-swap disconnect may still have been applied to
it (as the counterexample shows). -/
theorem C9_old_scale_teardown (env : ChangeEnv) (p : ScaleProcessor)
    (id : Option String) :
    (∀ o : Scale, p._scale = some o →
      (change_scale_to_id env p id).1._scale ≠ some o →
      (env.old_disconnect_result = Except.ok () →
        [Action.disconnect o.id, Action.decommission o.id]
          <:+ (change_scale_to_id env p id).2.2) ∧
      (∀ e : String, env.old_disconnect_result = Except.error e →
        [Action.disconnect o.id] <:+ (change_scale_to_id env p id).2.2 ∧
        Action.decommission o.id ∉ (change_scale_to_id env p id).2.2 ∧
        (change_scale_to_id env p id).2.1 = Except.error e)) ∧
    ((change_scale_to_id env p id).1._scale = p._scale →
      ∀ n : Nat, Action.decommission n ∉ (change_scale_to_id env p id).2.2) := by
  unfold change_scale_to_id
  split
  · next haddr =>
    constructor
    · intro o hpo hne
      simp only at hne
      exact absurd hpo hne
    · intro _ n
      simp
  · next haddr =>
    constructor
    · intro o hpo hne
      rw [hpo] at hne ⊢
      rw [change_scale_finally_fst] at hne
      constructor
      · intro hok
        simp only [change_scale_finally, ne_eq, hne, not_false_eq_true,
          if_true, hok]
        exact List.suffix_append _ _
      · intro e herr
        simp only [change_scale_finally, ne_eq, hne, not_false_eq_true,
          if_true, herr]
        refine ⟨List.suffix_append _ _, ?_, trivial⟩
        simp only [List.mem_append, not_or]
        exact ⟨change_scale_try_no_decommission env p id o.id, by simp⟩
    · intro heq n
      rw [change_scale_finally_fst] at heq
      rcases hpo : p._scale with _ | o
      · simp only [change_scale_finally]
        exact change_scale_try_no_decommission env p id n
      · rw [hpo] at heq
        simp only [change_scale_finally, heq, ne_eq, not_true_eq_false,
          if_false]
        exact change_scale_try_no_decommission env p id n

/-- Witness for C9 (amended): a successful swap from scaleA to scaleB ends
with scaleA's disconnect then decommission; the same swap with a raising
cleanup disconnect still records the disconnect attempt but never
decommissions and surfaces the cleanup exception; the failed-factory call
of the counterexample leaves scaleA bound and never decommissions it. -/
theorem C9_old_scale_teardown_witness :
    ([Action.disconnect scaleA.id, Action.decommission scaleA.id]
      <:+ (change_scale_to_id changeEnvOk procA
            (some "11:22:33:44:55:66")).2.2) ∧
    ([Action.disconnect scaleA.id]
        <:+ (change_scale_to_id changeEnvOldDiscFail procA
              (some "11:22:33:44:55:66")).2.2 ∧
      Action.decommission scaleA.id
        ∉ (change_scale_to_id changeEnvOldDiscFail procA
            (some "11:22:33:44:55:66")).2.2 ∧
      (change_scale_to_id changeEnvOldDiscFail procA
          (some "11:22:33:44:55:66")).2.1
        = Except.error "old disconnect failed") ∧
    Action.decommission scaleA.id
      ∉ (change_scale_to_id changeEnvFactoryFail procA
          (some "11:22:33:44:55:66")).2.2 :=
  ⟨((C9_old_scale_teardown changeEnvOk procA
      (some "11:22:33:44:55:66")).1 scaleA rfl (by decide)).1 rfl,
   ((C9_old_scale_teardown changeEnvOldDiscFail procA
      (some "11:22:33:44:55:66")).1 scaleA rfl (by decide)).2
     "old disconnect failed" rfl,
   (C9_old_scale_teardown changeEnvFactoryFail procA
      (some "11:22:33:44:55:66")).2 (by decide) scaleA.id⟩

end PyDE1
